import Mathlib

/-!
# Verification of `packages/vite/src/node/logger.ts`

Shallow embedding of the logger module. Console output is modelled as a list
of `ConsoleEvent`s returned by each operation; the module-level mutable
variables `lastType`, `lastMsg`, `sameCount` are modelled as a `GlobalState`
record threaded through every call (they live at module scope in the source,
outside `createLogger`, so all loggers created by `createLogger` share them).
Per-logger mutable state (`hasWarned`, `warnedMessages`, `loggedErrors`) is a
`LoggerState` record.  Terminal color styling (`picocolors`) is an external
collaborator and is modelled as an opaque record `Colors` of
`String → String` functions; `new Date().toLocaleTimeString()` is modelled as
an explicit `now : String` argument.  Error objects are modelled as `ErrLike`
values carrying a numeric identity `eid` (JS object identity, as used by the
`WeakSet`) and a `message`.
-/

/-- Source: `export type LogType = 'error' | 'warn' | 'info'` -/
inductive LogType where
  | error
  | warn
  | info
deriving DecidableEq, Repr

/-- Source: `export type LogLevel = LogType | 'silent'` -/
inductive LogLevel where
  | silent
  | error
  | warn
  | info
deriving DecidableEq, Repr

/-- Source: `export const LogLevels: Record<LogLevel, number>` -/
def LogLevels : LogLevel → Nat
  | .silent => 0
  | .error => 1
  | .warn => 2
  | .info => 3

/-- The `LogLevel` a `LogType` denotes (the severities are a subset of the levels). -/
def LogType.toLevel : LogType → LogLevel
  | .error => .error
  | .warn => .warn
  | .info => .info

/-- Value of `LogLevels[type]` for a message severity. -/
def rank (t : LogType) : Nat := LogLevels t.toLevel

/-- A JS `Error | RollupError` object: `eid` is the object identity used by the
`WeakSet`, `message` its message text. -/
structure ErrLike where
  eid : Nat
  message : String
deriving DecidableEq, Repr

/-- Source: `interface LogOptions { clear?: boolean; timestamp?: boolean }`
(absent optional fields modelled as `false`). -/
structure LogOptions where
  clear : Bool := false
  timestamp : Bool := false
deriving DecidableEq, Repr

/-- Source: `interface LogErrorOptions extends LogOptions { error?: ... | null }` -/
structure LogErrorOptions where
  clear : Bool := false
  timestamp : Bool := false
  error : Option ErrLike := none
deriving DecidableEq, Repr

/-- Widening `LogOptions` to `LogErrorOptions` (no `error` attached). -/
def LogOptions.toErr (o : LogOptions) : LogErrorOptions :=
  { clear := o.clear, timestamp := o.timestamp, error := none }

/-- The module-level mutable variables
`let lastType: LogType | undefined; let lastMsg: string | undefined; let sameCount = 0`.
They are declared at module scope in the source, so every logger created by
`createLogger` reads and writes this one shared record. -/
structure GlobalState where
  lastType : Option LogType := none
  lastMsg : Option String := none
  sameCount : Nat := 0
deriving DecidableEq, Repr

/-- Per-logger mutable state: the `hasWarned` flag, the `warnedMessages`
set (for `warnOnce`) and the `loggedErrors` weak set (stored as the list of
object identities it contains). -/
structure LoggerState where
  hasWarned : Bool := false
  warnedMessages : List String := []
  loggedErrors : List Nat := []
deriving DecidableEq, Repr

/-- Opaque styling collaborator (`picocolors`): each field is a
`style(text) -> text` function.  Defaults are the identity. -/
structure Colors where
  cyan : String → String := fun s => s
  yellow : String → String := fun s => s
  red : String → String := fun s => s
  dim : String → String := fun s => s
  bold : String → String := fun s => s

/-- The immutable per-logger configuration computed by `createLogger`:
`thresh = LogLevels[level]`, `canClearScreen`, and the tag text used when
timestamps are requested. -/
structure LoggerConfig where
  thresh : Nat
  canClearScreen : Bool
  pfx : String := "[vite]"
deriving DecidableEq, Repr

/-- Source: `interface LoggerOptions { prefix?: string; allowClearScreen?: boolean }`
with the defaults `'[vite]'` and `true` applied (`customLogger`, which merely
returns a caller-supplied object unchanged, is not modelled). -/
structure LoggerOptions where
  pfx : String := "[vite]"
  allowClearScreen : Bool := true
deriving DecidableEq, Repr

/-- Source: `createLogger(level = 'info', options = {})`: computes the threshold and
the clear-screen capability `allowClearScreen && process.stdout.isTTY &&
!process.env.CI` (the TTY and CI facts are external inputs). -/
def createLogger (level : LogLevel := .info) (options : LoggerOptions := {})
    (isTTY : Bool := true) (ciEnv : Bool := false) : LoggerConfig :=
  { thresh := LogLevels level
    canClearScreen := options.allowClearScreen && isTTY && !ciEnv
    pfx := options.pfx }

/-- One observable console action: a `console[method](args...)` call (the
second argument, when present, is the repeat suffix) or a screen clear. -/
inductive ConsoleEvent where
  | print (method : String) (args : List String)
  | clearScr
deriving DecidableEq, Repr

/-- Is this event a `console[method](...)` print? -/
def ConsoleEvent.isPrint : ConsoleEvent → Bool
  | .print _ _ => true
  | .clearScr => false

/-- Source: `const method = type === 'info' ? 'log' : type` -/
def consoleMethod : LogType → String
  | .info => "log"
  | .warn => "warn"
  | .error => "error"

/-- The colored severity tag chosen inside `format()`. -/
def severityTag (co : Colors) (pfx : String) : LogType → String
  | .info => co.cyan (co.bold pfx)
  | .warn => co.yellow (co.bold pfx)
  | .error => co.red (co.bold pfx)

/-- The `format()` closure: with `options.timestamp`, prepend the dimmed time
and the colored tag; otherwise the message verbatim. -/
def format (co : Colors) (pfx : String) (now : String) (t : LogType) (msg : String)
    (opts : LogErrorOptions) : String :=
  if opts.timestamp then
    co.dim now ++ " " ++ severityTag co pfx t ++ " " ++ msg
  else
    msg

/-- Result of one `output` call: the new shared dedup state, the new contents
of the logger's `loggedErrors` set, and the console events in order. -/
structure OutRes where
  gs : GlobalState
  errs : List Nat
  events : List ConsoleEvent
deriving DecidableEq, Repr

/-- WeakSet `add`: membership is by identity; adding a present element is a
no-op. -/
def addErr (errs : List Nat) : Option ErrLike → List Nat
  | some e => if errs.contains e.eid then errs else errs ++ [e.eid]
  | none => errs

/-- The inner `output(type, msg, options)` function of `createLogger`. -/
def output (co : Colors) (cfg : LoggerConfig) (now : String) (t : LogType) (msg : String)
    (opts : LogErrorOptions) (g : GlobalState) (errs : List Nat) : OutRes :=
  if cfg.thresh ≥ rank t then
    let fmt := format co cfg.pfx now t msg opts
    let errs' := addErr errs opts.error
    if cfg.canClearScreen then
      if g.lastType = some t ∧ g.lastMsg = some msg then
        let sc := g.sameCount + 1
        { gs := { g with sameCount := sc }
          errs := errs'
          events := [ConsoleEvent.clearScr,
            ConsoleEvent.print (consoleMethod t)
              [fmt, co.yellow ("(x" ++ toString (sc + 1) ++ ")")]] }
      else
        { gs := { lastType := some t, lastMsg := some msg, sameCount := 0 }
          errs := errs'
          events := (if opts.clear then [ConsoleEvent.clearScr] else []) ++
            [ConsoleEvent.print (consoleMethod t) [fmt]] }
    else
      { gs := g, errs := errs', events := [ConsoleEvent.print (consoleMethod t) [fmt]] }
  else
    { gs := g, errs := errs, events := [] }

/-- Result of one public logger operation. -/
structure LogRes where
  gs : GlobalState
  s : LoggerState
  events : List ConsoleEvent
deriving DecidableEq, Repr

/-- Source: `info(msg, opts) { output('info', msg, opts) }` -/
def Logger.info (co : Colors) (cfg : LoggerConfig) (now msg : String) (opts : LogOptions)
    (g : GlobalState) (s : LoggerState) : LogRes :=
  let r := output co cfg now .info msg opts.toErr g s.loggedErrors
  { gs := r.gs, s := { s with loggedErrors := r.errs }, events := r.events }

/-- Source: `warn(msg, opts) { logger.hasWarned = true; output('warn', msg, opts) }` -/
def Logger.warn (co : Colors) (cfg : LoggerConfig) (now msg : String) (opts : LogOptions)
    (g : GlobalState) (s : LoggerState) : LogRes :=
  let s1 := { s with hasWarned := true }
  let r := output co cfg now .warn msg opts.toErr g s1.loggedErrors
  { gs := r.gs, s := { s1 with loggedErrors := r.errs }, events := r.events }

/-- Source: `warnOnce(msg, opts)`: early return when the message was already warned;
otherwise exactly `warn` followed by `warnedMessages.add(msg)`. -/
def Logger.warnOnce (co : Colors) (cfg : LoggerConfig) (now msg : String) (opts : LogOptions)
    (g : GlobalState) (s : LoggerState) : LogRes :=
  if s.warnedMessages.contains msg then
    { gs := g, s := s, events := [] }
  else
    let s1 := { s with hasWarned := true }
    let r := output co cfg now .warn msg opts.toErr g s1.loggedErrors
    { gs := r.gs
      s := { s1 with loggedErrors := r.errs, warnedMessages := s1.warnedMessages ++ [msg] }
      events := r.events }

/-- Source: `error(msg, opts) { logger.hasWarned = true; output('error', msg, opts) }` -/
def Logger.error (co : Colors) (cfg : LoggerConfig) (now msg : String) (opts : LogErrorOptions)
    (g : GlobalState) (s : LoggerState) : LogRes :=
  let s1 := { s with hasWarned := true }
  let r := output co cfg now .error msg opts g s1.loggedErrors
  { gs := r.gs, s := { s1 with loggedErrors := r.errs }, events := r.events }

/-- Source: `hasErrorLogged(error) { return loggedErrors.has(error) }` — membership by
object identity. -/
def Logger.hasErrorLogged (s : LoggerState) (e : ErrLike) : Bool :=
  s.loggedErrors.contains e.eid

/-- Dispatch a log call at a given severity to the matching public operation
(`info`, `warn` or `error`). -/
def Logger.call (t : LogType) (co : Colors) (cfg : LoggerConfig) (now msg : String)
    (opts : LogOptions) (g : GlobalState) (s : LoggerState) : LogRes :=
  match t with
  | .info => Logger.info co cfg now msg opts g s
  | .warn => Logger.warn co cfg now msg opts g s
  | .error => Logger.error co cfg now msg opts.toErr g s

/-! ## URL reporter (`printServerUrls`, `printCommonServerUrls`) -/

/-- Record `{ host: string | undefined, name: string }` as returned by the external
`resolveHostname` helper. -/
structure Hostname where
  host : Option String
  name : String
deriving DecidableEq, Repr

/-- One entry of a network-interface list: `{ address, family }`. -/
structure InterfaceDetail where
  address : String
  family : String
deriving DecidableEq, Repr

/-- Does the second list start with the first? (char-list prefix test) -/
def startsWithL : List Char → List Char → Bool
  | [], _ => true
  | _ :: _, [] => false
  | p :: ps, c :: cs => p = c && startsWithL ps cs

/-- Does the second list contain the first as a contiguous run? -/
def hasSubL (pat : List Char) : List Char → Bool
  | [] => startsWithL pat []
  | c :: cs => startsWithL pat (c :: cs) || hasSubL pat cs

/-- JS `s.includes(sub)`: substring containment (true when `sub` is empty). -/
def jsIncludes (s sub : String) : Bool :=
  hasSubL sub.data s.data

/-- JS `s.replace(pat, rep)` with a string pattern: replaces only the first
occurrence (the whole string is returned unchanged when `pat` never occurs). -/
def replaceFirstL (pat rep : List Char) : List Char → List Char
  | [] => if startsWithL pat [] then rep else []
  | c :: cs =>
    if startsWithL pat (c :: cs) then rep ++ (c :: cs).drop pat.length
    else c :: replaceFirstL pat rep cs

/-- JS `s.replace(pat, rep)` on strings. -/
def jsReplaceFirst (s pat rep : String) : String :=
  ⟨replaceFirstL pat.data rep.data s.data⟩

/-- Modelled from the spec: `DEFAULT_IPV4_ADDR` is imported from
`./constants`, a file not among the sources; the spec's glossary gives the
IPv4 "any"/wildcard address literal as `0.0.0.0`. -/
def DEFAULT_IPV4_ADDR : String := "0.0.0.0"

/-- Modelled from the spec: `DEFAULT_IPV6_ADDR` is imported from
`./constants`, a file not among the sources; the spec's glossary gives the
IPv6 "any"/wildcard address literal as `::`. -/
def DEFAULT_IPV6_ADDR : String := "::"

/-- The `.filter((detail) => ...)` predicate of `printServerUrls`: the
`!detail.address` truthiness guard, then the IPv6 rule (host truthy, textually
contains the address, not `'::'`) or the IPv4 rule. -/
def ipFilter (hostname : Hostname) (detail : InterfaceDetail) : Bool :=
  if detail.address = "" then false
  else if detail.family = "IPv6" then
    match hostname.host with
    | none => false
    | some h => h != "" && jsIncludes h detail.address && h != "::"
  else
    let isIpv4DefaultAddress := jsIncludes detail.address "127.0.0.1"
    match hostname.host with
    | none => true
    | some h =>
      h == DEFAULT_IPV4_ADDR || h == DEFAULT_IPV6_ADDR ||
        jsIncludes h detail.address || (isIpv4DefaultAddress && h != "::1")

/-- The `.map((detail) => ...)` step of `printServerUrls`: classify as
`Local:` / `Network:`, substitute the display name for the IPv4 loopback
literal, bracket IPv6-looking hosts, and build the display line. -/
def urlLine (co : Colors) (hostname : Hostname) (protocol : String) (port : Nat)
    (base : String) (detail : InterfaceDetail) : String :=
  let lineType :=
    if jsIncludes detail.address "127.0.0.1" || jsIncludes detail.address "::1" then
      "Local:   "
    else
      "Network: "
  let host0 := jsReplaceFirst detail.address "127.0.0.1" hostname.name
  let host := if jsIncludes host0 ":" then "[" ++ host0 ++ "]" else host0
  let url := protocol ++ "://" ++ host ++ ":" ++ co.bold (toString port) ++ base
  "  > " ++ lineType ++ " " ++ co.cyan url

/-- Source: `printServerUrls(hostname, protocol, port, base, info)`, with the lines it
pipes into `info` returned as a list.  `interfaces` models
`Object.values(os.networkInterfaces())` (each value possibly undefined, as
handled by `nInterface ?? []`). -/
def printServerUrls (co : Colors) (hostname : Hostname) (protocol : String) (port : Nat)
    (base : String) (interfaces : List (Option (List InterfaceDetail))) : List String :=
  if hostname.host = some "127.0.0.1" then
    let url := protocol ++ "://" ++ hostname.name ++ ":" ++ co.bold (toString port) ++ base
    ["  > Local: " ++ co.cyan url] ++
      (if hostname.name ≠ "127.0.0.1" then ["  > Network: " ++ co.dim "use `--host` to expose"]
       else [])
  else
    (((interfaces.map (fun n => n.getD [])).flatten.filter (ipFilter hostname)).map
      (urlLine co hostname protocol port base))

/-- Source: `net.AddressInfo`: the object shape returned by `server.address()` when
the server is bound to an IP socket. -/
structure AddressInfo where
  address : String
  port : Nat
deriving DecidableEq, Repr

/-- The possible values of `server.address()`: `null`, a pipe-name string, or
an `AddressInfo` object. -/
inductive ServerAddress where
  | nullAddr
  | strAddr (s : String)
  | infoAddr (a : AddressInfo)
deriving DecidableEq, Repr

/-- Source: `const isAddressInfo = (x: any): x is AddressInfo => x?.address` —
truthiness of `x?.address`: `null` and strings have no `address` property, and
an empty `address` string is falsy. -/
def isAddressInfo : ServerAddress → Bool
  | .infoAddr a => a.address != ""
  | _ => false

/-- Source: `printCommonServerUrls(server, options, config)`, with the produced lines
returned instead of piped into `config.logger.info`.  The external
`resolveHostname` helper is a black-box argument; `httpsFlag` is
`options.https` truthiness. -/
def printCommonServerUrls (co : Colors) (addr : ServerAddress)
    (resolveHostname : Option String → Hostname) (optHost : Option String)
    (httpsFlag : Bool) (base : String)
    (interfaces : List (Option (List InterfaceDetail))) : List String :=
  if isAddressInfo addr then
    match addr with
    | .infoAddr a =>
      printServerUrls co (resolveHostname optHost)
        (if httpsFlag then "https" else "http") a.port base interfaces
    | _ => []
  else
    []

/-! ## Helper lemmas -/

/-- A call below the threshold is a complete no-op. -/
lemma output_reject (co : Colors) (cfg : LoggerConfig) (now t msg opts g errs)
    (h : ¬ rank t ≤ cfg.thresh) :
    output co cfg now t msg opts g errs = { gs := g, errs := errs, events := [] } := by
  unfold output
  rw [if_neg h]

/-- An accepted call always stores `addErr errs opts.error` as the new
`loggedErrors` contents, in every print branch. -/
lemma output_errs_accept (co : Colors) (cfg : LoggerConfig) (now t msg opts g errs)
    (ha : rank t ≤ cfg.thresh) :
    (output co cfg now t msg opts g errs).errs = addErr errs opts.error := by
  unfold output
  rw [if_pos ha]
  dsimp only
  split
  · split <;> rfl
  · rfl

/-- An accepted call on the shared dedup state `(some t, some msg, c)` with
clearing permitted collapses: increment, clear, print with suffix. -/
lemma output_repeat_step (co : Colors) (cfg : LoggerConfig) (now t msg opts errs c)
    (hc : cfg.canClearScreen = true) (ha : rank t ≤ cfg.thresh) :
    output co cfg now t msg opts ⟨some t, some msg, c⟩ errs =
      { gs := ⟨some t, some msg, c + 1⟩
        errs := addErr errs opts.error
        events := [ConsoleEvent.clearScr,
          ConsoleEvent.print (consoleMethod t)
            [format co cfg.pfx now t msg opts, co.yellow ("(x" ++ toString (c + 2) ++ ")")]] } := by
  unfold output
  rw [if_pos ha, hc]
  rw [if_pos rfl, if_pos ⟨rfl, rfl⟩]

/-- An accepted call whose `(type, message)` differs from the shared dedup
state, with clearing permitted: reset the counter, record the new pair, print
with no suffix (clearing first when `options.clear` is set). -/
lemma output_fresh_step (co : Colors) (cfg : LoggerConfig) (now t msg opts g errs)
    (hc : cfg.canClearScreen = true) (ha : rank t ≤ cfg.thresh)
    (hne : ¬ (g.lastType = some t ∧ g.lastMsg = some msg)) :
    output co cfg now t msg opts g errs =
      { gs := ⟨some t, some msg, 0⟩
        errs := addErr errs opts.error
        events := (if opts.clear then [ConsoleEvent.clearScr] else []) ++
          [ConsoleEvent.print (consoleMethod t) [format co cfg.pfx now t msg opts]] } := by
  unfold output
  rw [if_pos ha, hc]
  rw [if_pos rfl, if_neg hne]

/-- An accepted call with clearing not permitted: print the formatted message,
touch nothing else. -/
lemma output_noclear (co : Colors) (cfg : LoggerConfig) (now t msg opts g errs)
    (hc : cfg.canClearScreen = false) (ha : rank t ≤ cfg.thresh) :
    output co cfg now t msg opts g errs =
      { gs := g
        errs := addErr errs opts.error
        events := [ConsoleEvent.print (consoleMethod t) [format co cfg.pfx now t msg opts]] } := by
  unfold output
  rw [if_pos ha, hc]
  rw [if_neg Bool.false_ne_true]

/-- The events of a public log call are those of the underlying `output`
call at the matching severity. -/
lemma call_events (t : LogType) (co : Colors) (cfg : LoggerConfig) (now msg opts g s) :
    (Logger.call t co cfg now msg opts g s).events =
      (output co cfg now t msg opts.toErr g s.loggedErrors).events := by
  cases t <;> rfl

/-- In every branch of an accepted `output` call the events contain a print. -/
lemma output_events_print (co : Colors) (cfg : LoggerConfig) (now t msg opts g errs) :
    ((output co cfg now t msg opts g errs).events.any ConsoleEvent.isPrint) =
      decide (rank t ≤ cfg.thresh) := by
  by_cases ha : rank t ≤ cfg.thresh
  · rw [decide_eq_true ha]
    unfold output
    rw [if_pos ha]
    dsimp only
    split
    · split
      · simp [ConsoleEvent.isPrint]
      · cases opts.clear <;> simp [ConsoleEvent.isPrint]
    · simp [ConsoleEvent.isPrint]
  · rw [output_reject co cfg now t msg opts g errs ha]
    simp [ha]

/-! ## Claim theorems -/

/-- C3: for every severity `t` in `{info, warn, error}` and every message, a
log call at severity `t` produces console output iff `rank t ≤ threshold`;
when `rank t > threshold` the call prints nothing. -/
theorem severity_gate (t : LogType) (co : Colors) (cfg : LoggerConfig) (now msg : String)
    (opts : LogOptions) (g : GlobalState) (s : LoggerState) :
    ((Logger.call t co cfg now msg opts g s).events.any ConsoleEvent.isPrint) =
      decide (rank t ≤ cfg.thresh) := by
  rw [call_events]
  exact output_events_print co cfg now t msg opts.toErr g s.loggedErrors

/-- C9: when screen-clearing is not permitted, every accepted log call prints
exactly the formatted message, with no repeat suffix, and leaves the shared
`lastType`/`lastMsg`/`sameCount` dedup state unchanged. -/
theorem no_clear_passthrough (co : Colors) (cfg : LoggerConfig) (now : String) (t : LogType)
    (msg : String) (opts : LogErrorOptions) (g : GlobalState) (errs : List Nat)
    (hc : cfg.canClearScreen = false) (ha : rank t ≤ cfg.thresh) :
    (output co cfg now t msg opts g errs).gs = g ∧
    (output co cfg now t msg opts g errs).events =
      [ConsoleEvent.print (consoleMethod t) [format co cfg.pfx now t msg opts]] := by
  rw [output_noclear co cfg now t msg opts g errs hc ha]
  exact ⟨rfl, rfl⟩

/-- Witness for `no_clear_passthrough` at a concrete non-TTY logger. -/
theorem no_clear_passthrough_witness :
    (output {} (createLogger .info {} false false) "" .info "hello" {} {} []).gs = {} ∧
    (output {} (createLogger .info {} false false) "" .info "hello" {} {} []).events =
      [ConsoleEvent.print "log" ["hello"]] := by
  have h := no_clear_passthrough {} (createLogger .info {} false false) "" .info "hello" {} {} []
    rfl (by decide)
  exact ⟨h.1, h.2⟩

/-- C2 counterexample: a logger built at level `silent` suppresses an `error`
call, and then the attached error object is *not* recorded — `hasErrorLogged`
still answers `false` although `options.error` was present. -/
theorem suppressed_error_not_recorded_cex :
    Logger.hasErrorLogged
      (Logger.error {} (createLogger .silent {} true false) "" "boom"
        { error := some ⟨0, "boom"⟩ } {} {}).s ⟨0, "boom"⟩ = false := by
  decide

/-- C2 (amended): the identity of `options.error` is added to the reported
errors exactly when the call passes the severity gate (`rank t ≤ threshold`);
within an accepted call it is recorded in every branch, printed or cleared or
collapsed alike, but a gate-suppressed call records nothing. -/
theorem error_recorded_iff_accepted (co : Colors) (cfg : LoggerConfig) (now : String)
    (t : LogType) (msg : String) (opts : LogErrorOptions) (e : ErrLike) (g : GlobalState)
    (errs : List Nat) :
    ((output co cfg now t msg { opts with error := some e } g errs).errs.contains e.eid) =
      (decide (rank t ≤ cfg.thresh) || errs.contains e.eid) := by
  by_cases ha : rank t ≤ cfg.thresh
  · rw [output_errs_accept _ _ _ _ _ _ _ _ ha, decide_eq_true ha, Bool.true_or]
    show (addErr errs (some e)).contains e.eid = true
    simp only [addErr]
    split
    · rename_i h
      exact h
    · simp
  · rw [output_reject _ _ _ _ _ _ _ _ ha]
    simp [ha]

/-- C6: `hasErrorLogged e` is `false` on a fresh logger, `true` right after
`error (msg, {error := e})` (same identity), and still `false` for a distinct
error object with an identical message — membership is by identity. -/
theorem hasErrorLogged_identity (co : Colors) (cfg : LoggerConfig) (now msg : String)
    (g : GlobalState) (e e' : ErrLike)
    (hth : rank .error ≤ cfg.thresh) (hne : e'.eid ≠ e.eid) (_hmsg : e'.message = e.message) :
    Logger.hasErrorLogged ({} : LoggerState) e = false ∧
    Logger.hasErrorLogged
      (Logger.error co cfg now msg { error := some e } g ({} : LoggerState)).s e = true ∧
    Logger.hasErrorLogged
      (Logger.error co cfg now msg { error := some e } g ({} : LoggerState)).s e' = false := by
  have herrs : (Logger.error co cfg now msg { error := some e } g
      ({} : LoggerState)).s.loggedErrors = [e.eid] := by
    show (output co cfg now .error msg { error := some e } g
      ({} : LoggerState).loggedErrors).errs = [e.eid]
    rw [output_errs_accept _ _ _ _ _ _ _ _ hth]
    rfl
  refine ⟨rfl, ?_, ?_⟩
  · unfold Logger.hasErrorLogged
    rw [herrs]
    simp
  · unfold Logger.hasErrorLogged
    rw [herrs]
    simp [hne]

/-- Witness for `hasErrorLogged_identity`: two distinct error objects with the
same message on a default logger. -/
theorem hasErrorLogged_identity_witness :
    Logger.hasErrorLogged ({} : LoggerState) (⟨1, "oops"⟩ : ErrLike) = false ∧
    Logger.hasErrorLogged
      (Logger.error {} (createLogger) "" "m" { error := some ⟨1, "oops"⟩ } {}
        ({} : LoggerState)).s ⟨1, "oops"⟩ = true ∧
    Logger.hasErrorLogged
      (Logger.error {} (createLogger) "" "m" { error := some ⟨1, "oops"⟩ } {}
        ({} : LoggerState)).s ⟨2, "oops"⟩ = false := by
  exact hasErrorLogged_identity {} (createLogger) "" "m" {} ⟨1, "oops"⟩ ⟨2, "oops"⟩
    (by decide) (by decide) rfl

/-- The `warnOnce` short-circuit: with the message already warned, the call
returns untouched state and performs no console action. -/
lemma warnOnce_mem (co : Colors) (cfg : LoggerConfig) (now msg : String) (opts : LogOptions)
    (g : GlobalState) (s : LoggerState) (h : s.warnedMessages.contains msg = true) :
    Logger.warnOnce co cfg now msg opts g s = { gs := g, s := s, events := [] } := by
  unfold Logger.warnOnce
  rw [if_pos h]

/-- C5: a first `warnOnce msg` behaves exactly as `warn msg` followed by
adding `msg` to the warned-once set; a second `warnOnce msg` on the resulting
logger state (under any shared dedup state) returns with no print and no state
change at all. -/
theorem warnOnce_once_semantics (co : Colors) (cfg : LoggerConfig) (now msg : String)
    (opts : LogOptions) (g g' : GlobalState) (s : LoggerState)
    (hfirst : s.warnedMessages.contains msg = false) :
    (Logger.warnOnce co cfg now msg opts g s =
      { gs := (Logger.warn co cfg now msg opts g s).gs
        s := { (Logger.warn co cfg now msg opts g s).s with
                 warnedMessages :=
                   (Logger.warn co cfg now msg opts g s).s.warnedMessages ++ [msg] }
        events := (Logger.warn co cfg now msg opts g s).events }) ∧
    (Logger.warnOnce co cfg now msg opts g' (Logger.warnOnce co cfg now msg opts g s).s =
      { gs := g', s := (Logger.warnOnce co cfg now msg opts g s).s, events := [] }) := by
  have hcond : ¬ (s.warnedMessages.contains msg = true) := by
    rw [hfirst]
    exact Bool.false_ne_true
  have hfresh : Logger.warnOnce co cfg now msg opts g s =
      { gs := (Logger.warn co cfg now msg opts g s).gs
        s := { (Logger.warn co cfg now msg opts g s).s with
                 warnedMessages :=
                   (Logger.warn co cfg now msg opts g s).s.warnedMessages ++ [msg] }
        events := (Logger.warn co cfg now msg opts g s).events } := by
    unfold Logger.warnOnce
    rw [if_neg hcond]
    rfl
  refine ⟨hfresh, ?_⟩
  have hmem : (Logger.warnOnce co cfg now msg opts g s).s.warnedMessages.contains msg = true := by
    rw [hfresh]
    show ((Logger.warn co cfg now msg opts g s).s.warnedMessages ++ [msg]).contains msg = true
    simp
  exact warnOnce_mem co cfg now msg opts g' _ hmem

/-- Witness for `warnOnce_once_semantics` on a fresh default logger. -/
theorem warnOnce_once_semantics_witness :
    (Logger.warnOnce {} (createLogger) "" "w" {} {} {}).s.warnedMessages = ["w"] ∧
    (Logger.warnOnce {} (createLogger) "" "w" {} {}
        (Logger.warnOnce {} (createLogger) "" "w" {} {} {}).s).events = [] := by
  have h := warnOnce_once_semantics {} (createLogger) "" "w" {} {} {} {} rfl
  refine ⟨?_, ?_⟩
  · rw [h.1]
    rfl
  · rw [h.2]

/-- C1 counterexample: the dedup state lives at module scope, so it is shared
between loggers.  Logger B's very first `info "hello"` collapses with an
`(x2)` suffix because logger A (a different logger, clearing permitted on
both) printed `"hello"` just before — collapsing in one logger is triggered by
a call on the other, and A's call visibly changed the dedup state B reads. -/
theorem dedup_cross_contamination_cex :
    ((Logger.info {} (createLogger .info ⟨"[a]", true⟩ true false) "" "hello" {} {} {}).gs ≠
        ({} : GlobalState)) ∧
    (Logger.info {} (createLogger .info ⟨"[b]", true⟩ true false) "" "hello" {}
        (Logger.info {} (createLogger .info ⟨"[a]", true⟩ true false) "" "hello" {} {} {}).gs
        {}).events =
      [ConsoleEvent.clearScr, ConsoleEvent.print "log" ["hello", "(x2)"]] := by
  exact ⟨by decide, by decide⟩

/-- C1 (amended): dedup state is module-global, not per-logger — all loggers
created by `createLogger` read and write the same `(lastType, lastMsg,
sameCount)`.  With clearing permitted on both loggers, an accepted call on
logger A records its pair in the shared state, and a subsequent identical
accepted call on logger B collapses with an `(x2)` suffix although B itself
never printed the message. -/
theorem dedup_state_shared (co : Colors) (cfgA cfgB : LoggerConfig) (now : String)
    (t : LogType) (msg : String) (g : GlobalState) (errsA errsB : List Nat)
    (hcA : cfgA.canClearScreen = true) (hcB : cfgB.canClearScreen = true)
    (haA : rank t ≤ cfgA.thresh) (haB : rank t ≤ cfgB.thresh)
    (hfresh : ¬ (g.lastType = some t ∧ g.lastMsg = some msg)) :
    (output co cfgA now t msg {} g errsA).gs = ⟨some t, some msg, 0⟩ ∧
    (output co cfgB now t msg {} (output co cfgA now t msg {} g errsA).gs errsB).events =
      [ConsoleEvent.clearScr,
       ConsoleEvent.print (consoleMethod t) [msg, co.yellow ("(x" ++ toString 2 ++ ")")]] := by
  have h1 := output_fresh_step co cfgA now t msg {} g errsA hcA haA hfresh
  have hg : (output co cfgA now t msg {} g errsA).gs = ⟨some t, some msg, 0⟩ := by
    rw [h1]
  refine ⟨hg, ?_⟩
  rw [hg, output_repeat_step co cfgB now t msg {} errsB 0 hcB haB]
  rfl

/-- Witness for `dedup_state_shared`: two concretely configured loggers. -/
theorem dedup_state_shared_witness :
    (output {} ⟨3, true, "[a]"⟩ "" .info "hi" {} {} []).gs = ⟨some .info, some "hi", 0⟩ ∧
    (output {} ⟨3, true, "[b]"⟩ "" .info "hi" {}
        (output {} ⟨3, true, "[a]"⟩ "" .info "hi" {} {} []).gs []).events =
      [ConsoleEvent.clearScr, ConsoleEvent.print "log" ["hi", "(x2)"]] := by
  have h := dedup_state_shared {} ⟨3, true, "[a]"⟩ ⟨3, true, "[b]"⟩ "" .info "hi" {} [] []
    rfl rfl (by decide) (by decide) (by decide)
  exact ⟨h.1, h.2⟩

/-- Run `n` consecutive identical accepted log calls through `output`,
collecting the per-call console events. -/
def runRepeats (co : Colors) (cfg : LoggerConfig) (now : String) (t : LogType) (msg : String) :
    Nat → GlobalState → GlobalState × List (List ConsoleEvent)
  | 0, g => (g, [])
  | n + 1, g =>
    let r := output co cfg now t msg {} g []
    let rest := runRepeats co cfg now t msg n r.gs
    (rest.1, r.events :: rest.2)

/-- Iterating identical accepted calls from a dedup state already holding the
pair at count `c`: the `i`-th iteration (0-based) clears and prints the suffix
`(x(c+i+2))`, and the count ends at `c + n`. -/
lemma runRepeats_collapse (co : Colors) (cfg : LoggerConfig) (now : String) (t : LogType)
    (msg : String) (hc : cfg.canClearScreen = true) (ha : rank t ≤ cfg.thresh) :
    ∀ (n c : Nat),
      runRepeats co cfg now t msg n ⟨some t, some msg, c⟩ =
        (⟨some t, some msg, c + n⟩,
         (List.range n).map (fun i => [ConsoleEvent.clearScr,
           ConsoleEvent.print (consoleMethod t)
             [msg, co.yellow ("(x" ++ toString (c + i + 2) ++ ")")]])) := by
  intro n
  induction n with
  | zero =>
    intro c
    simp [runRepeats]
  | succ n ih =>
    intro c
    rw [runRepeats]
    rw [output_repeat_step co cfg now t msg {} [] c hc ha]
    dsimp only
    rw [ih (c + 1)]
    refine Prod.ext ?_ ?_
    · show GlobalState.mk (some t) (some msg) (c + 1 + n) = ⟨some t, some msg, c + (n + 1)⟩
      have : c + 1 + n = c + (n + 1) := by omega
      rw [this]
    · show _ :: _ = _
      rw [List.range_succ_eq_map, List.map_cons, List.map_map]
      refine congrArg₂ _ ?_ ?_
      · show [ConsoleEvent.clearScr,
          ConsoleEvent.print (consoleMethod t)
            [format co cfg.pfx now t msg {}, co.yellow ("(x" ++ toString (c + 2) ++ ")")]] = _
        have : c + 0 + 2 = c + 2 := by omega
        rw [this]
        rfl
      · refine List.map_congr_left ?_
        intro i _
        have : c + 1 + i + 2 = c + (i + 1) + 2 := by omega
        simp only [Function.comp]
        rw [this]

/-- C4: with clearing permitted, starting right after a first print of
`(t, msg)`, the `n`-th identical accepted repeat (1-based) prints the suffix
`(x(n+1))` — `(x2)`, then `(x3)`, and so on; and an intervening accepted call
with a different `(type, message)` resets the counter to `0`, so the next
repeat of the new pair prints `(x2)` again. -/
theorem repeat_suffix_monotone_and_reset (co : Colors) (cfg : LoggerConfig) (now : String)
    (t : LogType) (msg : String) (t' : LogType) (msg' : String)
    (hc : cfg.canClearScreen = true) (ha : rank t ≤ cfg.thresh) (ha' : rank t' ≤ cfg.thresh)
    (hdiff : ¬ (t = t' ∧ msg = msg')) :
    (∀ n : Nat,
      (runRepeats co cfg now t msg n ⟨some t, some msg, 0⟩).2 =
        (List.range n).map (fun i => [ConsoleEvent.clearScr,
          ConsoleEvent.print (consoleMethod t)
            [msg, co.yellow ("(x" ++ toString (i + 2) ++ ")")]])) ∧
    (∀ (c : Nat) (errs errs2 : List Nat),
      (output co cfg now t' msg' {} ⟨some t, some msg, c⟩ errs).gs =
        ⟨some t', some msg', 0⟩ ∧
      (output co cfg now t' msg' {}
          (output co cfg now t' msg' {} ⟨some t, some msg, c⟩ errs).gs errs2).events =
        [ConsoleEvent.clearScr,
         ConsoleEvent.print (consoleMethod t') [msg', co.yellow ("(x" ++ toString 2 ++ ")")]]) := by
  constructor
  · intro n
    rw [runRepeats_collapse co cfg now t msg hc ha n 0]
    dsimp only
    refine List.map_congr_left ?_
    intro i _
    have : 0 + i + 2 = i + 2 := by omega
    rw [this]
  · intro c errs errs2
    have hne : ¬ ((GlobalState.mk (some t) (some msg) c).lastType = some t' ∧
        (GlobalState.mk (some t) (some msg) c).lastMsg = some msg') := by
      intro hcontra
      exact hdiff ⟨Option.some.inj hcontra.1, Option.some.inj hcontra.2⟩
    have h1 := output_fresh_step co cfg now t' msg' {} ⟨some t, some msg, c⟩ errs hc ha' hne
    have hg : (output co cfg now t' msg' {} ⟨some t, some msg, c⟩ errs).gs =
        ⟨some t', some msg', 0⟩ := by
      rw [h1]
    refine ⟨hg, ?_⟩
    rw [hg, output_repeat_step co cfg now t' msg' {} errs2 0 hc ha']
    rfl

/-- Witness for `repeat_suffix_monotone_and_reset`: two repeats of `"a"` on a
default TTY logger print `(x2)` then `(x3)`; after an intervening `"b"` from
repeat count 5, the next `"b"` prints `(x2)`. -/
theorem repeat_suffix_monotone_and_reset_witness :
    (runRepeats {} (createLogger) "" .info "a" 2 ⟨some .info, some "a", 0⟩).2 =
      [[ConsoleEvent.clearScr, ConsoleEvent.print "log" ["a", "(x2)"]],
       [ConsoleEvent.clearScr, ConsoleEvent.print "log" ["a", "(x3)"]]] ∧
    (output {} (createLogger) "" .warn "b" {}
        (output {} (createLogger) "" .warn "b" {} ⟨some .info, some "a", 5⟩ []).gs []).events =
      [ConsoleEvent.clearScr, ConsoleEvent.print "warn" ["b", "(x2)"]] := by
  have h := repeat_suffix_monotone_and_reset {} (createLogger) "" .info "a" .warn "b"
    rfl (by decide) (by decide) (by decide)
  refine ⟨?_, ?_⟩
  · exact (h.1 2).trans (by decide)
  · exact ((h.2 5 [] []).2).trans (by decide)

/-- C7: whenever the resolved bind host is `127.0.0.1`, exactly one `Local:`
line is emitted, whose URL host is the display name `hostname.name`, and one
additional `Network:` advisory line is emitted iff the display name differs
from `127.0.0.1`; the interface list is never consulted. -/
theorem loopback_branch (co : Colors) (hostname : Hostname) (protocol : String) (port : Nat)
    (base : String) (ifs : List (Option (List InterfaceDetail)))
    (h : hostname.host = some "127.0.0.1") :
    printServerUrls co hostname protocol port base ifs =
      ["  > Local: " ++ co.cyan (protocol ++ "://" ++ hostname.name ++ ":" ++
          co.bold (toString port) ++ base)] ++
        (if hostname.name ≠ "127.0.0.1" then
          ["  > Network: " ++ co.dim "use `--host` to expose"]
         else []) := by
  unfold printServerUrls
  rw [if_pos h]

/-- Witness for `loopback_branch`: host `127.0.0.1`, name `localhost`,
`http`, port `5173`, base `/` yields exactly two lines, the first the Local
URL `http://localhost:5173/`. -/
theorem loopback_branch_witness :
    printServerUrls {} ⟨some "127.0.0.1", "localhost"⟩ "http" 5173 "/" [] =
      ["  > Local: http://localhost:5173/", "  > Network: use `--host` to expose"] := by
  have h := loopback_branch {} ⟨some "127.0.0.1", "localhost"⟩ "http" 5173 "/" [] rfl
  exact h.trans (by decide)

/-- With the configured host unset, the interface filter rejects every IPv6
descriptor. -/
lemma ipFilter_none_ipv6 (hostname : Hostname) (d : InterfaceDetail)
    (hh : hostname.host = none) (hf : d.family = "IPv6") :
    ipFilter hostname d = false := by
  unfold ipFilter
  by_cases haddr : d.address = ""
  · rw [if_pos haddr]
  · rw [if_neg haddr, if_pos hf, hh]

/-- C8: an IPv6 interface descriptor passes the URL reporter's filter only if
the configured host is set, textually contains that exact address, and is not
the IPv6 any-address literal `::`; with the host unset no IPv6 descriptor
passes, and every emitted line comes from a non-IPv6 descriptor. -/
theorem ipv6_requires_host (hostname : Hostname) (detail : InterfaceDetail) (co : Colors)
    (protocol : String) (port : Nat) (base : String)
    (ifs : List (Option (List InterfaceDetail)))
    (hfam : detail.family = "IPv6") :
    (ipFilter hostname detail = true →
      ∃ h, hostname.host = some h ∧ jsIncludes h detail.address = true ∧ h ≠ "::") ∧
    (hostname.host = none → ipFilter hostname detail = false) ∧
    (hostname.host = none →
      ∀ line ∈ printServerUrls co hostname protocol port base ifs,
        ∃ d, ipFilter hostname d = true ∧ d.family ≠ "IPv6" ∧
          line = urlLine co hostname protocol port base d) := by
  refine ⟨?_, fun hh => ipFilter_none_ipv6 hostname detail hh hfam, ?_⟩
  · intro hfil
    unfold ipFilter at hfil
    by_cases haddr : detail.address = ""
    · rw [if_pos haddr] at hfil
      exact absurd hfil (by simp)
    · rw [if_neg haddr, if_pos hfam] at hfil
      cases hh : hostname.host with
      | none =>
        rw [hh] at hfil
        exact absurd hfil (by simp)
      | some h =>
        rw [hh] at hfil
        simp only [Bool.and_eq_true, bne_iff_ne] at hfil
        exact ⟨h, rfl, hfil.1.2, hfil.2⟩
  · intro hh line hline
    have hhost : ¬ (hostname.host = some "127.0.0.1") := by
      rw [hh]
      simp
    unfold printServerUrls at hline
    rw [if_neg hhost] at hline
    obtain ⟨d, hd, hlined⟩ := List.mem_map.mp hline
    have hdf := (List.mem_filter.mp hd).2
    refine ⟨d, hdf, ?_, hlined.symm⟩
    intro hf6
    have hfalse := ipFilter_none_ipv6 hostname d hh hf6
    rw [hfalse] at hdf
    exact absurd hdf Bool.false_ne_true

/-- Witness for `ipv6_requires_host`: with the host unset, the loopback IPv6
descriptor `::1` is rejected by the filter. -/
theorem ipv6_requires_host_witness :
    ipFilter ⟨none, "localhost"⟩ ⟨"::1", "IPv6"⟩ = false :=
  (ipv6_requires_host ⟨none, "localhost"⟩ ⟨"::1", "IPv6"⟩ {} "http" 3000 "/" [] rfl).2.1 rfl

/-- C10: `printCommonServerUrls` emits no lines when `server.address()` is
`null` or a pipe-name string — URL lines are produced only when the bound
address is a genuine `AddressInfo` object (with a truthy `address` field). -/
theorem address_info_guard (co : Colors) (resolveHostname : Option String → Hostname)
    (optHost : Option String) (httpsFlag : Bool) (base : String)
    (ifs : List (Option (List InterfaceDetail))) (s : String) :
    printCommonServerUrls co ServerAddress.nullAddr resolveHostname optHost httpsFlag base ifs
        = [] ∧
    printCommonServerUrls co (ServerAddress.strAddr s) resolveHostname optHost httpsFlag base ifs
        = [] ∧
    (∀ addr : ServerAddress,
      printCommonServerUrls co addr resolveHostname optHost httpsFlag base ifs ≠ [] →
        ∃ a : AddressInfo, addr = ServerAddress.infoAddr a ∧ isAddressInfo addr = true) := by
  refine ⟨rfl, rfl, ?_⟩
  intro addr hne
  cases addr with
  | nullAddr => exact absurd rfl hne
  | strAddr s2 => exact absurd rfl hne
  | infoAddr a =>
    refine ⟨a, rfl, ?_⟩
    by_cases hi : isAddressInfo (ServerAddress.infoAddr a) = true
    · exact hi
    · exfalso
      apply hne
      unfold printCommonServerUrls
      rw [if_neg hi]

/-- Witness for `address_info_guard`: a Windows pipe name yields no lines. -/
theorem address_info_guard_witness :
    printCommonServerUrls {} (ServerAddress.strAddr "mypipe")
      (fun _ => ⟨none, "localhost"⟩) none false "/" [] = [] :=
  (address_info_guard {} (fun _ => ⟨none, "localhost"⟩) none false "/" [] "mypipe").2.1
